import Mathlib

/-!
Verification development for the `ag-devops` corpus.

The executable heart of the corpus is a small Express + SQLite "todos" CRUD
server that appears, with minor variations, in several files.  The primary
variant embedded here is the server of `src/unnamed/part_009` (lines 1-158):
a `todos` table
  (id TEXT PRIMARY KEY, title TEXT NOT NULL, description TEXT,
   completed BOOLEAN DEFAULT 0, priority TEXT DEFAULT 'medium',
   category TEXT DEFAULT 'general', created_at DATETIME, updated_at DATETIME)
with handlers

  GET    /api/todos      -> SELECT * FROM todos ORDER BY created_at DESC
  GET    /api/todos/:id  -> SELECT * WHERE id = ?      (404 when no row)
  POST   /api/todos      -> guard `if (!title)` -> 400; INSERT; 201 with row
  PUT    /api/todos/:id  -> UPDATE with COALESCE(?, col) on title,
                            description, completed, priority, category and
                            updated_at = now; this.changes === 0 -> 404;
                            else refetch row
  DELETE /api/todos/:id  -> DELETE WHERE id = ?; this.changes === 0 -> 404

The embedding:
  * a SQLite table state is a `List Todo` in insertion order;
  * SQL NULL is `Option.none`; `title` is kept as `Option String` so that the
    NOT NULL invariant is a provable property, not a typing accident;
  * `completed` is stored as `Bool` (the column is populated only by the
    DEFAULT 0 of the INSERT and by bound JS booleans);
  * request bodies carry `Option` fields: `none` models a field that is
    absent from the JSON body (for the PUT handler `none` equally models an
    explicit JSON null - both bind as SQL NULL, so COALESCE keeps the old
    value);
  * nondeterministic inputs of the handlers (`uuidv4()`, `new Date()`) are
    passed as explicit arguments;
  * the fresh-id INSERT conflict of the TEXT PRIMARY KEY is modelled as the
    SQLite UNIQUE failure (HTTP 500), matching the driver behaviour;
  * `ORDER BY created_at DESC` uses binary string comparison, modelled by
    the order on `String` (UTF-8 byte order and code-point order agree).
-/

/-- A row of the `todos` table of `src/unnamed/part_009` (CREATE TABLE at
lines 20-31).  Nullable columns are `Option`; `id` is TEXT. -/
structure Todo where
  id : String
  title : Option String
  description : Option String
  completed : Bool
  priority : Option String
  category : Option String
  created_at : String
  updated_at : String
deriving Repr, DecidableEq

/-- JSON body of `POST /api/todos` (part_009 line 74): the destructured
fields `title`, `description`, `priority = 'medium'`, `category = 'general'`.
`none` = field absent. -/
structure CreateBody where
  title : Option String
  description : Option String
  priority : Option String
  category : Option String
deriving Repr, DecidableEq

/-- JSON body of `PUT /api/todos/:id` (part_009 line 105): the destructured
fields `title`, `description`, `completed`, `priority`, `category`.
`none` = field absent (or JSON null): it binds as SQL NULL. -/
structure UpdateBody where
  title : Option String
  description : Option String
  completed : Option Bool
  priority : Option String
  category : Option String
deriving Repr, DecidableEq

/-- The JSON value a handler sends with `res.json(...)`. -/
inductive ApiBody where
  | todoRow (t : Todo)
  | todoList (ts : List Todo)
  | errorMsg (e : String)
  | message (m : String)
  | jsonUndefined
deriving Repr, DecidableEq

/-- An HTTP response of the part_009 server: status code plus JSON body. -/
structure ApiResponse where
  status : Nat
  body : ApiBody
deriving Repr, DecidableEq

/-- JavaScript truthiness of the `title` binding in `if (!title)`
(part_009 line 76) for a string-or-absent value: `undefined`, `null` and
the empty string are falsy, every other string is truthy. -/
def jsStringTruthy : Option String → Bool
  | none => false
  | some s => !(s == "")

/-- Comparator of `ORDER BY created_at DESC` (part_009 line 50):
row `a` comes before row `b` when `a.created_at` is the larger key. -/
def createdDescLe (a b : Todo) : Bool :=
  decide (b.created_at ≤ a.created_at)

/-- `GET /api/todos` (part_009 lines 49-56):
`SELECT * FROM todos ORDER BY created_at DESC`, sent with default status
200. -/
def getAllTodos (db : List Todo) : ApiResponse :=
  { status := 200, body := .todoList (db.mergeSort createdDescLe) }

/-- `GET /api/todos/:id` (part_009 lines 59-70): `SELECT * WHERE id = ?`;
no row means 404, otherwise the row with status 200. -/
def getTodoById (db : List Todo) (id : String) : ApiResponse :=
  match db.find? (fun r => r.id == id) with
  | none => { status := 404, body := .errorMsg "Todo not found" }
  | some row => { status := 200, body := .todoRow row }

/-- `POST /api/todos` (part_009 lines 73-100): guard `if (!title)` gives
400; otherwise INSERT the row (`completed` takes the column DEFAULT 0,
`priority`/`category` take the JS destructuring defaults, `created_at` and
`updated_at` are both `now`) and answer 201 with the refetched row.  A
duplicate of the TEXT PRIMARY KEY makes the INSERT fail, which the handler
turns into HTTP 500 (part_009 lines 88-90). -/
def createTodo (db : List Todo) (b : CreateBody) (newId now : String) :
    ApiResponse × List Todo :=
  if !(jsStringTruthy b.title) then
    ({ status := 400, body := .errorMsg "Title is required" }, db)
  else if (db.find? (fun r => r.id == newId)).isSome then
    ({ status := 500, body := .errorMsg "UNIQUE constraint failed: todos.id" }, db)
  else
    let row : Todo :=
      { id := newId
        title := b.title
        description := b.description
        completed := false
        priority := some (b.priority.getD "medium")
        category := some (b.category.getD "general")
        created_at := now
        updated_at := now }
    ({ status := 201, body := .todoRow row }, db ++ [row])

/-- The effect of the UPDATE of `PUT /api/todos/:id` (part_009 lines
108-117) on one matched row: every column is `COALESCE(?, column)` - the
bound value when it is non-NULL, the stored value otherwise - and
`updated_at = ?` is the handler's `now`. -/
def coalesceUpdate (r : Todo) (b : UpdateBody) (now : String) : Todo :=
  { r with
    title := match b.title with | some v => some v | none => r.title
    description := match b.description with | some v => some v | none => r.description
    completed := b.completed.getD r.completed
    priority := match b.priority with | some v => some v | none => r.priority
    category := match b.category with | some v => some v | none => r.category
    updated_at := now }

/-- `PUT /api/todos/:id` (part_009 lines 103-135): run the UPDATE on every
row matching the id; `this.changes === 0` gives 404; otherwise refetch
`SELECT * WHERE id = ?` and send the row (status 200). -/
def updateTodo (db : List Todo) (id : String) (b : UpdateBody) (now : String) :
    ApiResponse × List Todo :=
  let db2 := db.map (fun r => if r.id == id then coalesceUpdate r b now else r)
  if db.countP (fun r => r.id == id) == 0 then
    ({ status := 404, body := .errorMsg "Todo not found" }, db2)
  else
    match db2.find? (fun r => r.id == id) with
    | none => ({ status := 200, body := .jsonUndefined }, db2)
    | some row => ({ status := 200, body := .todoRow row }, db2)

/-- `DELETE /api/todos/:id` (part_009 lines 138-152): DELETE every row
matching the id; `this.changes === 0` gives 404; otherwise a success
message (status 200). -/
def deleteTodo (db : List Todo) (id : String) : ApiResponse × List Todo :=
  let db2 := db.filter (fun r => !(r.id == id))
  if db.countP (fun r => r.id == id) == 0 then
    ({ status := 404, body := .errorMsg "Todo not found" }, db2)
  else
    ({ status := 200, body := .message "Todo deleted successfully" }, db2)

/-!
Second backend variant: `src/todo-app/backend` (controller embedded in
`src/todo-app/backend/routes/users.js` after the separator, schema in
`src/unnamed/part_010`).  Its `todos` table additionally has `due_date`
and `user_id` columns, an INTEGER AUTOINCREMENT id, and its
`getAllTodos` filters by `user_id` before ordering by `created_at DESC`.
-/

/-- A row of the `todos` table of `src/unnamed/part_010` (lines 22-36):
the part_009 columns plus `due_date DATETIME` and
`user_id INTEGER REFERENCES users(id)`; `id` is INTEGER AUTOINCREMENT. -/
structure TodoV2 where
  id : Nat
  title : Option String
  description : Option String
  completed : Bool
  priority : Option String
  category : Option String
  due_date : Option String
  user_id : Option Nat
  created_at : String
  updated_at : String
deriving Repr, DecidableEq

/-- `ORDER BY created_at DESC` comparator for the part_010 row shape. -/
def createdDescLeV2 (a b : TodoV2) : Bool :=
  decide (b.created_at ≤ a.created_at)

/-- `todoController.getAllTodos` (users.js lines 18-31 of the controller
document): `SELECT * FROM todos WHERE user_id = ? ORDER BY created_at
DESC`.  A row whose `user_id` is NULL never satisfies `user_id = ?`. -/
def getAllTodosByUser (db : List TodoV2) (userId : Nat) : List TodoV2 :=
  (db.filter (fun r => r.user_id == some userId)).mergeSort createdDescLeV2

/-!
Reachable states of the part_009 table.  An operation is one API call that
can change the table; `applyOp` is the table component of the matching
handler.  (`GET` handlers never change the table.)
-/

/-- One state-changing API call against the part_009 server. -/
inductive Op where
  | create (b : CreateBody) (newId now : String)
  | update (id : String) (b : UpdateBody) (now : String)
  | remove (id : String)
deriving Repr

/-- The table after one API call: the table component of the handler. -/
def applyOp (db : List Todo) : Op → List Todo
  | .create b newId now => (createTodo db b newId now).2
  | .update id b now => (updateTodo db id b now).2
  | .remove id => (deleteTodo db id).2

/-- The NOT NULL discipline of the `title` column: no stored row has a
NULL title. -/
def titlesNotNull (db : List Todo) : Prop :=
  ∀ r ∈ db, r.title.isSome

/-!
Schema census for the column-list claim.  Each list transcribes, in
declaration order, the column names of one `CREATE TABLE ... todos`
statement of the corpus.
-/

/-- Columns of `CREATE TABLE IF NOT EXISTS todos` in `src/unnamed/part_009`
lines 20-31 (also the server of `src/full_pipeline_testing.md` lines
559-570). -/
def todosColumns_part009_main : List String :=
  ["id", "title", "description", "completed", "priority", "category",
   "created_at", "updated_at"]

/-- Columns of `CREATE TABLE todos` in the in-memory server at
`src/unnamed/part_009` lines 172-180 (the same schema appears in
`src/setup-simple.sh` line 222, `src/setup-conda.sh` lines 331 and 1628,
and `src/setup-windows.sh` line 236). -/
def todosColumns_part009_memory : List String :=
  ["id", "title", "description", "completed", "priority", "category",
   "created_at"]

/-- Columns of `CREATE TABLE IF NOT EXISTS todos` in `src/unnamed/part_010`
lines 22-36 (the variant that also creates a `users` table). -/
def todosColumns_part010 : List String :=
  ["id", "title", "description", "completed", "priority", "category",
   "due_date", "user_id", "created_at", "updated_at"]

/-- The column list asserted by the data-model claim:
id, title, description, completed, priority, category, created_at and
optionally updated_at. -/
def claimedTodoColumns : List String :=
  ["id", "title", "description", "completed", "priority", "category",
   "created_at", "updated_at"]

/-!
Route census for the interface claim.  `corpusRoutes` lists every
HTTP route registered by `app.<method>` or `router.<method>` in the
corpus, deduplicated across the repeated copies of the same server
(part_009 both servers, setup-simple.sh, setup-conda.sh, setup-windows.sh,
full_pipeline_testing.md, todo-app/backend/routes/todos.js as mounted at
/api/todos, and todo-app/backend/routes/users.js).
-/

/-- Every (method, path) pair registered by a server or router of the
corpus. -/
def corpusRoutes : List (String × String) :=
  [("GET", "/health"),
   ("GET", "/api/todos"),
   ("GET", "/api/todos/:id"),
   ("POST", "/api/todos"),
   ("PUT", "/api/todos/:id"),
   ("DELETE", "/api/todos/:id"),
   ("GET", "/profile")]

/-- The interface asserted by the claim: the five /api/todos CRUD routes
and the health endpoint. -/
def claimedInterface : List (String × String) :=
  [("GET", "/api/todos"),
   ("GET", "/api/todos/:id"),
   ("POST", "/api/todos"),
   ("PUT", "/api/todos/:id"),
   ("DELETE", "/api/todos/:id"),
   ("GET", "/health")]

/-- The LangGraph pipeline routes the claim says are absent. -/
def absentPipelineRoutes : List String :=
  ["/webhook/jira", "/test/export", "/status/:id", "/reports/:id"]

/-!
The monitor script `src/server_monitor.sh`.  Its top level is

    main
    while true; do
        sleep 30
        main
    done

`main` (lines 61-249) prints status checks; its only way of stopping the
script is the working-directory guard at lines 68-73:

    if [ ! -f "src/server.py" ] || [ ! -d "todo-app" ]; then
        ...
        exit 1
    fi

The helper check functions only `return`; the `break` at line 55 is inside
an embedded Python snippet.  The environment is abstracted as
`env : Nat -> Bool`: whether the directory guard passes on the n-th run of
`main`.
-/

/-- One observable action of the monitor script. -/
inductive MonEvent where
  | runMain
  | sleep30
deriving Repr, DecidableEq

/-- Whether the script is still alive after a run of `main`. -/
inductive MonStatus where
  | running
  | exited
deriving Repr, DecidableEq

/-- One run of `main`: `exit 1` when the working-directory guard fails,
otherwise `main` returns and the script continues. -/
def mainRun (dirOk : Bool) : MonStatus :=
  if dirOk then .running else .exited

/-- Script status after the (n+1)-st run of `main` (n = 0 is the initial
top-level `main`; each later run happens inside the `while true` loop). -/
def monitorStatus (env : Nat → Bool) : Nat → MonStatus
  | 0 => mainRun (env 0)
  | n + 1 =>
    match monitorStatus env n with
    | .exited => .exited
    | .running => mainRun (env (n + 1))

/-- The actions the script has performed after n loop iterations: the
initial `main`, then while it is alive one `sleep 30` and one `main` per
iteration of `while true`. -/
def monitorTrace (env : Nat → Bool) : Nat → List MonEvent
  | 0 => [.runMain]
  | n + 1 =>
    match monitorStatus env n with
    | .exited => monitorTrace env n
    | .running => monitorTrace env n ++ [.sleep30, .runMain]

/-- A concrete row used as input by the instantiation theorems (the shape
of the first sample row inserted by part_009 lines 34-40). -/
def sampleRow : Todo :=
  { id := "1"
    title := some "Welcome to Todo App"
    description := some "This is your first todo item"
    completed := false
    priority := some "high"
    category := some "general"
    created_at := "2025-01-01 00:00:00"
    updated_at := "2025-01-01 00:00:00" }

/-- The table the PUT handler leaves behind is always the COALESCE update
applied to every row matching the id (both on the 404 path, where no row
matches, and on the 200 path). -/
theorem updateTodo_table (db : List Todo) (id : String) (b : UpdateBody) (now : String) :
    (updateTodo db id b now).2
      = db.map (fun r => if r.id == id then coalesceUpdate r b now else r) := by
  unfold updateTodo
  split
  · rfl
  · cases hf : (db.map (fun r => if (r.id == id) = true then coalesceUpdate r b now else r)).find?
        (fun r => r.id == id) <;>
      simp [hf] <;> split <;> rfl

/-- The table the DELETE handler leaves behind is always the table without
the rows matching the id. -/
theorem deleteTodo_table (db : List Todo) (id : String) :
    (deleteTodo db id).2 = db.filter (fun r => !(r.id == id)) := by
  unfold deleteTodo
  split <;> rfl

/-- The COALESCE update never touches the `id` column. -/
theorem coalesceUpdate_id (r : Todo) (b : UpdateBody) (now : String) :
    (coalesceUpdate r b now).id = r.id := rfl

/-- `find?` on an id-keyed predicate commutes with a map that preserves
ids. -/
theorem find?_map_id_preserved (db : List Todo) (id : String)
    (f : Todo → Todo) (hf : ∀ r, (f r).id = r.id) :
    (db.map f).find? (fun r => r.id == id) = (db.find? (fun r => r.id == id)).map f := by
  induction db with
  | nil => rfl
  | cons a l ih =>
    have hfa : ((f a).id == id) = (a.id == id) := by rw [hf a]
    cases h : (a.id == id)
    · simpa [List.find?_cons, hfa, h] using ih
    · simp [List.find?_cons, hfa, h]

/-- Claim C5, counterexample: the todos variant of `src/unnamed/part_010`
(the one that also creates a `users` table) has columns `due_date` and
`user_id`, which are outside the claimed column list, so "no todos variant
has columns outside this list" is false. -/
theorem C5_columns_counterexample :
    "due_date" ∈ todosColumns_part010 ∧ "user_id" ∈ todosColumns_part010 ∧
    "due_date" ∉ claimedTodoColumns ∧ "user_id" ∉ claimedTodoColumns := by
  decide

/-- Claim C5, amended: the persistent data model is the SQLite `todos`
table with columns id, title, description, completed, priority, category,
created_at and optionally updated_at, except that the one variant with the
optional `users` table (part_010) additionally has `due_date` and
`user_id` columns; every variant stays within the claimed list extended by
those two columns. -/
theorem C5_columns_amended :
    (∀ c ∈ todosColumns_part009_main, c ∈ claimedTodoColumns) ∧
    (∀ c ∈ todosColumns_part009_memory, c ∈ claimedTodoColumns) ∧
    (∀ c ∈ todosColumns_part010, c ∈ claimedTodoColumns ++ ["due_date", "user_id"]) := by
  decide

/-- Claim C6, counterexample: the user router of
`src/todo-app/backend/routes/users.js` registers a `GET /profile` route,
so the implemented HTTP interface does not consist only of the /api/todos
CRUD routes and the health endpoint. -/
theorem C6_routes_counterexample :
    ("GET", "/profile") ∈ corpusRoutes ∧ ("GET", "/profile") ∉ claimedInterface := by
  decide

/-- Claim C6, amended: the HTTP interface implemented in the corpus
consists of the CRUD REST API on /api/todos, a health endpoint, and a demo
`GET /profile` user route; no /webhook/jira, /test/export, /status/:id or
/reports/:id route is implemented by any server in the source. -/
theorem C6_routes_amended :
    (∀ r ∈ corpusRoutes, r ∈ claimedInterface ∨ r = ("GET", "/profile")) ∧
    (∀ r ∈ corpusRoutes, r.2 ∉ absentPipelineRoutes) := by
  decide

/-- Claim C8, counterexample: the monitor script can terminate on its own.
When the working-directory guard of `main` (server_monitor.sh lines 68-73)
fails on the initial run, `exit 1` ends the script, so "the script never
terminates on its own" is false as stated. -/
theorem C8_monitor_counterexample :
    monitorStatus (fun _ => false) 0 = MonStatus.exited ∧
    monitorTrace (fun _ => false) 1 = [MonEvent.runMain] := by
  exact ⟨rfl, rfl⟩

/-- Claim C8, amended: as long as the working-directory guard inside
`main` passes on every run, the monitor script never terminates: after one
initial run of `main` it repeats forever the cycle (sleep 30 seconds, then
run all checks again), the `while true` loop itself having no exit
condition. -/
theorem C8_monitor_amended (env : Nat → Bool) (h : ∀ n, env n = true) :
    (∀ n, monitorStatus env n = MonStatus.running) ∧
    monitorTrace env 0 = [MonEvent.runMain] ∧
    (∀ n, monitorTrace env (n + 1) = monitorTrace env n ++ [MonEvent.sleep30, MonEvent.runMain]) := by
  have hs : ∀ n, monitorStatus env n = MonStatus.running := by
    intro n
    induction n with
    | zero => simp [monitorStatus, mainRun, h 0]
    | succ n ih => simp [monitorStatus, ih, mainRun, h (n + 1)]
  exact ⟨hs, rfl, fun n => by simp [monitorTrace, hs n]⟩

/-- Instantiation of C8_monitor_amended at the always-passing environment:
the script is still running after run 5, and one loop iteration appends a
sleep and a rerun of main to the trace. -/
theorem C8_monitor_amended_witness :
    monitorStatus (fun _ => true) 5 = MonStatus.running ∧
    monitorTrace (fun _ => true) 1 = [MonEvent.runMain, MonEvent.sleep30, MonEvent.runMain] := by
  refine ⟨(C8_monitor_amended (fun _ => true) (fun _ => rfl)).1 5, ?_⟩
  rw [(C8_monitor_amended (fun _ => true) (fun _ => rfl)).2.2 0]
  rfl

/-- Claim C10: a POST /api/todos whose title field is present but equal to
the empty string is rejected with HTTP 400 exactly like a request with no
title at all - the whole handler result is the same, the status is 400,
and no row is inserted - because `if (!title)` tests JavaScript truthiness
rather than presence. -/
theorem C10_empty_title_rejected (db : List Todo) (d p c : Option String)
    (newId now : String) :
    createTodo db ⟨some "", d, p, c⟩ newId now = createTodo db ⟨none, d, p, c⟩ newId now ∧
    (createTodo db ⟨some "", d, p, c⟩ newId now).1.status = 400 ∧
    (createTodo db ⟨some "", d, p, c⟩ newId now).2 = db := by
  refine ⟨rfl, ?_, ?_⟩ <;> simp [createTodo, jsStringTruthy]

/-- Claim C2: a POST /api/todos whose body lacks a title gets HTTP 400
with an error message and inserts no row; when a (truthy) title is
present, no 400 is produced whatever the other fields - in particular a
400 can only ever come from the title guard, never from a missing
description, priority or category. -/
theorem C2_create_requires_title (db : List Todo) (b : CreateBody) (newId now : String)
    (hfresh : ∀ r ∈ db, r.id ≠ newId) :
    (b.title = none →
      (createTodo db b newId now).1 = ⟨400, ApiBody.errorMsg "Title is required"⟩ ∧
      (createTodo db b newId now).2 = db) ∧
    (∀ t, b.title = some t → t ≠ "" →
      (createTodo db b newId now).1.status = 201 ∧
      (createTodo db b newId now).2.length = db.length + 1) ∧
    ((createTodo db b newId now).1.status = 400 → jsStringTruthy b.title = false) := by
  have hfind : db.find? (fun r => r.id == newId) = none := by
    rw [List.find?_eq_none]
    intro a ha
    simpa using hfresh a ha
  refine ⟨?_, ?_, ?_⟩
  · intro h
    exact ⟨by simp [createTodo, h, jsStringTruthy], by simp [createTodo, h, jsStringTruthy]⟩
  · intro t ht hne
    exact ⟨by simp [createTodo, ht, jsStringTruthy, hne, hfind],
           by simp [createTodo, ht, jsStringTruthy, hne, hfind]⟩
  · intro h400
    cases htruthy : jsStringTruthy b.title
    · rfl
    · simp [createTodo, htruthy, hfind] at h400

/-- Instantiation of C2_create_requires_title on the empty table: a body
with no title gets the 400 error response, and a body whose only field is
the title "hello" gets status 201. -/
theorem C2_create_requires_title_witness :
    (createTodo [] ⟨none, none, none, none⟩ "id1" "t").1
      = ⟨400, ApiBody.errorMsg "Title is required"⟩ ∧
    (createTodo [] ⟨some "hello", none, none, none⟩ "id1" "t").1.status = 201 := by
  have h0 : ∀ r ∈ ([] : List Todo), r.id ≠ "id1" := by simp
  exact ⟨((C2_create_requires_title [] ⟨none, none, none, none⟩ "id1" "t" h0).1 rfl).1,
         ((C2_create_requires_title [] ⟨some "hello", none, none, none⟩ "id1" "t" h0).2.1
            "hello" rfl (by decide)).1⟩

/-- Claim C3: for an id with no matching row, GET /api/todos/:id,
PUT /api/todos/:id and DELETE /api/todos/:id each answer HTTP 404 with the
"Todo not found" error body, and each leaves the table exactly as it
was. -/
theorem C3_missing_id_404 (db : List Todo) (id : String) (b : UpdateBody) (now : String)
    (h : ∀ r ∈ db, r.id ≠ id) :
    getTodoById db id = ⟨404, ApiBody.errorMsg "Todo not found"⟩ ∧
    (updateTodo db id b now).1 = ⟨404, ApiBody.errorMsg "Todo not found"⟩ ∧
    (updateTodo db id b now).2 = db ∧
    (deleteTodo db id).1 = ⟨404, ApiBody.errorMsg "Todo not found"⟩ ∧
    (deleteTodo db id).2 = db := by
  have hp : ∀ r ∈ db, (r.id == id) = false := by
    intro r hr
    simpa using h r hr
  have hfind : db.find? (fun r => r.id == id) = none := by
    rw [List.find?_eq_none]
    intro a ha
    simp [hp a ha]
  have hcount : db.countP (fun r => r.id == id) = 0 := by
    rw [List.countP_eq_zero]
    intro a ha
    simp [hp a ha]
  have hmap : db.map (fun r => if r.id == id then coalesceUpdate r b now else r) = db := by
    have h2 : ∀ a ∈ db, (if a.id == id then coalesceUpdate a b now else a) = (fun r => r) a := by
      intro a ha
      simp [hp a ha]
    rw [List.map_congr_left h2, List.map_id']
  have hfilter : db.filter (fun r => !(r.id == id)) = db := by
    rw [List.filter_eq_self]
    intro a ha
    simp [hp a ha]
  refine ⟨by simp [getTodoById, hfind], ?_, ?_, ?_, ?_⟩
  · simp [updateTodo, hcount]
  · rw [updateTodo_table]
    exact hmap
  · simp [deleteTodo, hcount]
  · rw [deleteTodo_table]
    exact hfilter

/-- Instantiation of C3_missing_id_404 at a one-row table and the absent
id "zzz": the GET answers 404 and the DELETE leaves the table intact. -/
theorem C3_missing_id_404_witness :
    (∀ r ∈ [sampleRow], r.id ≠ "zzz") ∧
    getTodoById [sampleRow] "zzz" = ⟨404, ApiBody.errorMsg "Todo not found"⟩ ∧
    (deleteTodo [sampleRow] "zzz").2 = [sampleRow] := by
  have h : ∀ r ∈ [sampleRow], r.id ≠ "zzz" := by decide
  exact ⟨h, (C3_missing_id_404 [sampleRow] "zzz" ⟨none, none, none, none, none⟩ "t" h).1,
            (C3_missing_id_404 [sampleRow] "zzz" ⟨none, none, none, none, none⟩ "t" h).2.2.2.2⟩

/-- Once at least one row matches the id, the PUT handler answers with
status 200 (both refetch outcomes send 200). -/
theorem updateTodo_status200 (db : List Todo) (id : String) (b : UpdateBody) (now : String)
    (h : db.countP (fun r => r.id == id) ≠ 0) :
    (updateTodo db id b now).1.status = 200 := by
  have hc : (db.countP (fun r => r.id == id) == 0) = false := by
    simpa using h
  unfold updateTodo
  simp only [hc, Bool.false_eq_true, if_false]
  cases hf : (db.map (fun r => if (r.id == id) = true then coalesceUpdate r b now else r)).find?
      (fun r => r.id == id) <;>
    simp [hf]

/-- Claim C1: for every PUT /api/todos/:id on an existing id the handler
answers 200 and performs a COALESCE-based partial update.  Row by row: a
row whose id differs is untouched; for the matched row each of title,
description, completed, priority and category keeps its prior stored value
when the body field is absent (bound as NULL) and takes the supplied value
when one is supplied; id and created_at are unchanged and only updated_at
is additionally changed, to the handler's timestamp. -/
theorem C1_put_partial_update (db : List Todo) (id : String) (b : UpdateBody) (now : String)
    (h : ∃ r ∈ db, r.id = id) :
    (updateTodo db id b now).1.status = 200 ∧
    List.Forall₂
      (fun r u =>
        if r.id = id then
          (b.title = none → u.title = r.title) ∧
          (∀ v, b.title = some v → u.title = some v) ∧
          (b.description = none → u.description = r.description) ∧
          (∀ v, b.description = some v → u.description = some v) ∧
          (b.completed = none → u.completed = r.completed) ∧
          (∀ v, b.completed = some v → u.completed = v) ∧
          (b.priority = none → u.priority = r.priority) ∧
          (∀ v, b.priority = some v → u.priority = some v) ∧
          (b.category = none → u.category = r.category) ∧
          (∀ v, b.category = some v → u.category = some v) ∧
          u.id = r.id ∧ u.created_at = r.created_at ∧ u.updated_at = now
        else u = r)
      db (updateTodo db id b now).2 := by
  constructor
  · apply updateTodo_status200
    rw [Ne, List.countP_eq_zero]
    push_neg
    obtain ⟨r, hr, hid⟩ := h
    exact ⟨r, hr, by simp [hid]⟩
  · rw [updateTodo_table, List.forall₂_map_right_iff, List.forall₂_same]
    intro r hr
    by_cases hid : r.id = id
    · simp only [hid, if_pos, beq_self_eq_true, if_true]
      refine ⟨fun hv => by simp [coalesceUpdate, hv],
              fun v hv => by simp [coalesceUpdate, hv],
              fun hv => by simp [coalesceUpdate, hv],
              fun v hv => by simp [coalesceUpdate, hv],
              fun hv => by simp [coalesceUpdate, hv],
              fun v hv => by simp [coalesceUpdate, hv],
              fun hv => by simp [coalesceUpdate, hv],
              fun v hv => by simp [coalesceUpdate, hv],
              fun hv => by simp [coalesceUpdate, hv],
              fun v hv => by simp [coalesceUpdate, hv],
              hid, rfl, rfl⟩
    · simp [hid]

/-- Instantiation of C1_put_partial_update at a one-row table: a body
supplying only a new title and completed=true yields status 200 and a
table whose single row has the new title, completed set, the old
description, priority, category, id and created_at, and the new
updated_at. -/
theorem C1_put_partial_update_witness :
    (∃ r ∈ [sampleRow], r.id = "1") ∧
    (updateTodo [sampleRow] "1" ⟨some "New title", none, some true, none, none⟩ "t2").1.status
      = 200 ∧
    (updateTodo [sampleRow] "1" ⟨some "New title", none, some true, none, none⟩ "t2").2
      = [{ sampleRow with title := some "New title", completed := true, updated_at := "t2" }] := by
  have hex : ∃ r ∈ [sampleRow], r.id = "1" := by decide
  refine ⟨hex,
    (C1_put_partial_update [sampleRow] "1" ⟨some "New title", none, some true, none, none⟩
      "t2" hex).1, ?_⟩
  decide

/-- When the table count for the id is non-zero and the refetch finds row
u, the PUT handler's response body is exactly that row. -/
theorem updateTodo_found (db : List Todo) (id : String) (b : UpdateBody) (now : String)
    (hc : db.countP (fun x => x.id == id) ≠ 0) (u : Todo)
    (hfind : (db.map (fun x => if x.id == id then coalesceUpdate x b now else x)).find?
        (fun x => x.id == id) = some u) :
    (updateTodo db id b now).1 = ⟨200, ApiBody.todoRow u⟩ := by
  have hc' : (db.countP (fun x => x.id == id) == 0) = false := by
    simpa using hc
  unfold updateTodo
  simp only [hc', Bool.false_eq_true, if_false, hfind]

/-- Claim C4: for an existing id and any boolean c, a PUT with body
{completed: c} succeeds with status 200, its response body is the updated
row, that row's completed field equals c, and a refetch
(GET /api/todos/:id against the table the PUT left behind) returns that
very row. -/
theorem C4_toggle_persists (db : List Todo) (id : String) (c : Bool) (now : String)
    (h : ∃ r ∈ db, r.id = id) :
    (updateTodo db id ⟨none, none, some c, none, none⟩ now).1.status = 200 ∧
    ∃ u, (updateTodo db id ⟨none, none, some c, none, none⟩ now).1.body = ApiBody.todoRow u ∧
      u.completed = c ∧
      getTodoById (updateTodo db id ⟨none, none, some c, none, none⟩ now).2 id
        = ⟨200, ApiBody.todoRow u⟩ := by
  obtain ⟨r, hr, hid⟩ := h
  have hcount : db.countP (fun x => x.id == id) ≠ 0 := by
    rw [Ne, List.countP_eq_zero]
    push_neg
    exact ⟨r, hr, by simp [hid]⟩
  have hsome : (db.find? (fun x => x.id == id)).isSome := by
    rw [List.find?_isSome]
    exact ⟨r, hr, by simp [hid]⟩
  obtain ⟨r0, hr0⟩ := Option.isSome_iff_exists.mp hsome
  have hr0p := List.find?_some hr0
  have hr0id : (r0.id == id) = true := hr0p
  have hfid : ∀ x, ((fun x => if x.id == id
      then coalesceUpdate x ⟨none, none, some c, none, none⟩ now else x) x).id = x.id := by
    intro x
    by_cases hx : (x.id == id) = true <;> simp [hx, coalesceUpdate]
  have hfind2 : (db.map (fun x => if x.id == id
      then coalesceUpdate x ⟨none, none, some c, none, none⟩ now else x)).find?
      (fun x => x.id == id)
      = some (coalesceUpdate r0 ⟨none, none, some c, none, none⟩ now) := by
    rw [find?_map_id_preserved db id _ hfid, hr0]
    have hreq : r0.id = id := by simpa using hr0id
    simp [hreq]
  have hres := updateTodo_found db id ⟨none, none, some c, none, none⟩ now hcount _ hfind2
  refine ⟨by rw [hres], coalesceUpdate r0 ⟨none, none, some c, none, none⟩ now,
    by rw [hres], by simp [coalesceUpdate], ?_⟩
  rw [updateTodo_table]
  unfold getTodoById
  rw [hfind2]

/-- Instantiation of C4_toggle_persists at a one-row table: toggling the
row with id "1" to completed=true answers 200 and a refetch sees
completed=true. -/
theorem C4_toggle_persists_witness :
    (∃ r ∈ [sampleRow], r.id = "1") ∧
    (updateTodo [sampleRow] "1" ⟨none, none, some true, none, none⟩ "t2").1.status = 200 := by
  have hex : ∃ r ∈ [sampleRow], r.id = "1" := by decide
  exact ⟨hex, (C4_toggle_persists [sampleRow] "1" true "t2" hex).1⟩

/-- Every state-changing handler preserves the NOT NULL discipline of the
title column: creation inserts a title that passed the truthiness guard,
the COALESCE update keeps the stored title when none is supplied, and
deletion only removes rows. -/
theorem applyOp_keeps_titles (db : List Todo) (op : Op) (h : titlesNotNull db) :
    titlesNotNull (applyOp db op) := by
  cases op with
  | create b newId now =>
    intro r hr
    simp only [applyOp, createTodo] at hr
    split at hr
    · exact h r hr
    · split at hr
      · exact h r hr
      · rename_i hg hd
        rw [List.mem_append] at hr
        rcases hr with hr | hr
        · exact h r hr
        · rw [List.mem_singleton] at hr
          subst hr
          have hg2 : jsStringTruthy b.title = true := by
            simpa using hg
          cases hb : b.title
          · rw [hb] at hg
            simp [jsStringTruthy] at hg
          · simp [hb]
  | update id b now =>
    intro r hr
    simp only [applyOp] at hr
    rw [updateTodo_table, List.mem_map] at hr
    obtain ⟨x, hx, hfx⟩ := hr
    subst hfx
    by_cases hxid : (x.id == id) = true
    · rw [if_pos hxid]
      cases hb : b.title
      · simpa [coalesceUpdate, hb] using h x hx
      · simp [coalesceUpdate, hb]
    · rw [if_neg hxid]
      exact h x hx
  | remove id =>
    intro r hr
    simp only [applyOp] at hr
    rw [deleteTodo_table] at hr
    exact h r (List.mem_of_mem_filter hr)

/-- Claim C7: every row of the todos table has a non-null title in every
reachable state.  Starting from any table in which no title is NULL (in
particular the empty table, and the sample rows, whose titles the NOT NULL
schema accepted), any sequence of create / update / delete API calls
leaves every stored title non-null: creation rejects a missing title
before inserting, and the update's COALESCE(?, title) can never write
NULL over it. -/
theorem C7_title_never_null (db0 : List Todo) (ops : List Op) (h : titlesNotNull db0) :
    titlesNotNull (ops.foldl applyOp db0) := by
  induction ops generalizing db0 with
  | nil => exact h
  | cons op rest ih => exact ih _ (applyOp_keeps_titles db0 op h)

/-- Instantiation of C7_title_never_null: a create, an update and a delete
run from the empty table leave only rows with non-null titles. -/
theorem C7_title_never_null_witness :
    titlesNotNull ([Op.create ⟨some "hello", none, none, none⟩ "id9" "t1",
        Op.update "id9" ⟨none, some "d", some true, none, none⟩ "t2",
        Op.remove "zzz"].foldl applyOp []) := by
  have h0 : titlesNotNull [] := by
    intro r hr
    cases hr
  exact C7_title_never_null [] _ h0

/-- Claim C9: GET /api/todos always returns the todos ordered by
created_at descending (newest first), in both server variants and for
every table state: the part_009 handler answers 200 with a permutation of
the whole table sorted descending by created_at, and the todo-app
controller answers the user's rows sorted descending by created_at. -/
theorem C9_get_all_sorted (db : List Todo) (db2 : List TodoV2) (userId : Nat) :
    (getAllTodos db).status = 200 ∧
    (∃ ts, (getAllTodos db).body = ApiBody.todoList ts ∧ ts.Perm db ∧
      ts.Pairwise (fun a b => b.created_at ≤ a.created_at)) ∧
    (getAllTodosByUser db2 userId).Perm
      (db2.filter (fun r => r.user_id == some userId)) ∧
    (getAllTodosByUser db2 userId).Pairwise (fun a b => b.created_at ≤ a.created_at) := by
  have htrans : ∀ a b c : Todo, createdDescLe a b = true → createdDescLe b c = true →
      createdDescLe a c = true := by
    intro a b c hab hbc
    simp only [createdDescLe, decide_eq_true_eq] at hab hbc ⊢
    exact le_trans hbc hab
  have htotal : ∀ a b : Todo, (createdDescLe a b || createdDescLe b a) = true := by
    intro a b
    simp only [createdDescLe, Bool.or_eq_true, decide_eq_true_eq]
    exact le_total b.created_at a.created_at
  have htrans2 : ∀ a b c : TodoV2, createdDescLeV2 a b = true → createdDescLeV2 b c = true →
      createdDescLeV2 a c = true := by
    intro a b c hab hbc
    simp only [createdDescLeV2, decide_eq_true_eq] at hab hbc ⊢
    exact le_trans hbc hab
  have htotal2 : ∀ a b : TodoV2, (createdDescLeV2 a b || createdDescLeV2 b a) = true := by
    intro a b
    simp only [createdDescLeV2, Bool.or_eq_true, decide_eq_true_eq]
    exact le_total b.created_at a.created_at
  refine ⟨rfl, ⟨db.mergeSort createdDescLe, rfl, List.mergeSort_perm db createdDescLe, ?_⟩,
    List.mergeSort_perm _ createdDescLeV2, ?_⟩
  · exact (List.sorted_mergeSort htrans htotal db).imp
      (fun hab => by simpa [createdDescLe] using hab)
  · exact (List.sorted_mergeSort htrans2 htotal2 _).imp
      (fun hab => by simpa [createdDescLeV2] using hab)
